import Mathlib

/-!
Verification of the FigmaMCP node-classification and style-extraction engine.

This file gives a shallow embedding, in Lean 4, of the pure core of the
repository: the recursive tree search (`findNodeByName`), the style
extractor and two-tier type classifier (`extractComponentStyle`), the text
and text-node searches (`extractText`, `findTextNode`), the hex color
conversion (`rgbaToHex`), the component enumerator (`extractComponents`),
the identifier derivation (`toPascalCase`), the framework code generator
(`generateReactCode`), and the HTTP route handler's outcome logic.

Modelling conventions:
* JavaScript numbers are modelled as rationals (`ℚ`).  The `x || d`
  defaulting idiom, under which both `undefined` and `0` are falsy, is
  modelled by `jsNumOr`; the string version (where `""` is falsy) by
  `jsStrOr`.
* Optional JSON attributes are `Option` fields.  An absent `children`
  attribute and a present empty `children` array behave identically in the
  source (the `if (node.children)` guard accepts `[]`, whose loop body then
  runs zero times), but both are modelled faithfully via
  `Option (List Node)`.
* String manipulation (lowercasing, substring search, splitting) is defined
  over character lists so that all definitions compute by kernel reduction.
  `toLowerCase`/`toUpperCase` are modelled by the ASCII case maps, which
  agree with JavaScript on the ASCII range used by the classifier.
* The `fillDebug` field of the extracted record (a `JSON.stringify` debug
  string) is not modelled; no property concerns it.
-/

namespace FigmaMCP

/-! ## JavaScript-idiom helpers -/

/-- JS `x || d` for an optional numeric attribute: both `undefined` and `0`
are falsy, so a present zero falls back to the default `d`. -/
def jsNumOr (x : Option ℚ) (d : ℚ) : ℚ :=
  match x with
  | none => d
  | some v => if v = 0 then d else v

/-- JS `x || d` for an optional string attribute: both `undefined` and the
empty string are falsy. -/
def jsStrOr (x : Option String) (d : String) : String :=
  match x with
  | none => d
  | some s => if s = "" then d else s

/-- JS truthiness of an optional string (`undefined` and `""` are falsy). -/
def jsStrTruthy : Option String → Bool
  | none => false
  | some s => !(s == "")

/-- ASCII lowercasing of a string, modelling `String.prototype.toLowerCase`
on the ASCII range. -/
def jsToLower (s : String) : String := ⟨s.toList.map Char.toLower⟩

/-- Does the character list start with the pattern? -/
def startsWithChars (pat l : List Char) : Bool :=
  match pat, l with
  | [], _ => true
  | _ :: _, [] => false
  | p :: ps, x :: xs => if p = x then startsWithChars ps xs else false

/-- Does the character list `l` contain `pat` as a contiguous run?  Models
`String.prototype.includes` over character lists. -/
def containsChars (pat : List Char) : List Char → Bool
  | [] => startsWithChars pat []
  | l@(_ :: rest) => startsWithChars pat l || containsChars pat rest

/-- JS `s.includes(pat)`: substring containment. -/
def jsIncludes (s pat : String) : Bool := containsChars pat.toList s.toList

/-- JS `Math.round`: round half away from zero toward positive infinity,
i.e. `⌊x + 1/2⌋`. -/
def jsRound (q : ℚ) : ℤ := ⌊q + 1/2⌋

/-- JS `n.toString(16)` for a nonnegative integer: lowercase hexadecimal
digits. -/
def natToHexString (n : ℕ) : String := ⟨Nat.toDigits 16 n⟩

/-- JS `s.padStart(2, "0")`. -/
def padStart2 (s : String) : String := ⟨List.replicate (2 - s.length) '0'⟩ ++ s

/-! ## Data model -/

/-- An RGB color; each channel is a float in `[0,1]` in the source data
model. -/
structure Color where
  r : ℚ
  g : ℚ
  b : ℚ
deriving DecidableEq

/-- A paint (fill or stroke) entry. -/
structure Paint where
  type : String
  color : Option Color
  opacity : Option ℚ
  visible : Option Bool
deriving DecidableEq

/-- A bounding box carrying the node's width and height. -/
structure BoundingBox where
  width : ℚ
  height : ℚ
deriving DecidableEq

/-- The non-recursive attributes of a document node. -/
structure NodeData where
  id : String
  name : String
  type : String
  absoluteBoundingBox : Option BoundingBox
  cornerRadius : Option ℚ
  fills : Option (List Paint)
  strokes : Option (List Paint)
  characters : Option String
  fontSize : Option ℚ
  fontWeight : Option ℚ
  textAlignHorizontal : Option String
deriving DecidableEq

/-- A node of the document tree.  The `children` attribute is optional in
the source JSON; an absent attribute is `none`. -/
inductive Node : Type where
  | mk (data : NodeData) (children : Option (List Node))

/-- The non-recursive attributes of a node. -/
def Node.data : Node → NodeData
  | .mk d _ => d

/-- The optional ordered children of a node. -/
def Node.children : Node → Option (List Node)
  | .mk _ c => c

/-- The node's `id`. -/
def Node.id (n : Node) : String := n.data.id

/-- The node's `name`. -/
def Node.name (n : Node) : String := n.data.name

/-- The node's `type` tag. -/
def Node.type (n : Node) : String := n.data.type

/-- The node's optional bounding box. -/
def Node.absoluteBoundingBox (n : Node) : Option BoundingBox :=
  n.data.absoluteBoundingBox

/-- The node's optional corner radius. -/
def Node.cornerRadius (n : Node) : Option ℚ := n.data.cornerRadius

/-- The node's optional fill list. -/
def Node.fills (n : Node) : Option (List Paint) := n.data.fills

/-- The node's optional stroke list. -/
def Node.strokes (n : Node) : Option (List Paint) := n.data.strokes

/-- The node's optional text content. -/
def Node.characters (n : Node) : Option String := n.data.characters

/-- The node's optional font size. -/
def Node.fontSize (n : Node) : Option ℚ := n.data.fontSize

/-- The node's optional font weight. -/
def Node.fontWeight (n : Node) : Option ℚ := n.data.fontWeight

/-- The node's optional horizontal text alignment. -/
def Node.textAlignHorizontal (n : Node) : Option String :=
  n.data.textAlignHorizontal

/-! ## Specification-side tree flattening

`preorder` lists every node of a tree in depth-first pre-order (the node
itself first, then the subtrees of its children in order).  It is used to
state the traversal claims. -/

mutual

/-- All nodes of the tree rooted at `n`, in depth-first pre-order. -/
def preorder (n : Node) : List Node :=
  match n with
  | .mk _ cs =>
    n :: (match cs with
          | some l => preorderList l
          | none => [])

/-- All nodes of a forest, in depth-first pre-order. -/
def preorderList : List Node → List Node
  | [] => []
  | c :: rest => preorder c ++ preorderList rest

end

/-! ## Tree search -/

mutual

/-- Embeds `findNodeByName` (src/unnamed/part_000 lines 65-76, identical to
src/src/index.js lines 209-222): visit the node; return it on an exact name
match, otherwise recurse into the children in order and return the first
match; `none` when the tree holds no match. -/
def findNodeByName (node : Node) (nm : String) : Option Node :=
  match node with
  | .mk d cs =>
    if d.name = nm then some node
    else
      match cs with
      | some l => findNodeByNameList l nm
      | none => none

/-- The `for (const child of node.children)` loop of `findNodeByName`:
first non-`none` recursive result wins. -/
def findNodeByNameList : List Node → String → Option Node
  | [], _ => none
  | c :: rest, nm =>
    match findNodeByName c nm with
    | some found => some found
    | none => findNodeByNameList rest nm

end

/-! ## Text and text-node search -/

mutual

/-- Embeds `findTextNode` (src/unnamed/part_000 lines 178-189): the first
node of type TEXT in depth-first pre-order, starting at `node` itself. -/
def findTextNode (node : Node) : Option Node :=
  match node with
  | .mk d cs =>
    if d.type = "TEXT" then some node
    else
      match cs with
      | some l => findTextNodeList l
      | none => none

/-- The children loop of `findTextNode`. -/
def findTextNodeList : List Node → Option Node
  | [] => none
  | c :: rest =>
    match findTextNode c with
    | some t => some t
    | none => findTextNodeList rest

end

mutual

/-- Embeds `extractText` (src/unnamed/part_000 lines 191-202, identical to
src/src/index.js lines 272-283): the node's own `characters` when truthy
(present and non-empty), else the first truthy `characters` found in the
children in order, else `none`. -/
def extractText (node : Node) : Option String :=
  match node with
  | .mk d cs =>
    if jsStrTruthy d.characters then d.characters
    else
      match cs with
      | some l => extractTextList l
      | none => none

/-- The children loop of `extractText`: `if (text) return text` keeps
searching past falsy (empty) results. -/
def extractTextList : List Node → Option String
  | [] => none
  | c :: rest =>
    match extractText c with
    | some t => if t = "" then extractTextList rest else some t
    | none => extractTextList rest

end

/-- The `characters` attribute filtered by JS truthiness: `some` exactly for
a present non-empty string.  Used to state the text-content property. -/
def truthyChars : Option String → Option String
  | none => none
  | some s => if s = "" then none else some s

/-! ## Color conversion -/

/-- Embeds `rgbaToHex` (src/unnamed/part_000 lines 204-209, identical to
src/src/index.js lines 285-290): each channel is scaled by 255, rounded,
rendered as two lowercase zero-padded hex digits.  Channels are in `[0,1]`
in the data model, so the rounded value is a nonnegative integer and
`Int.toNat` is exact. -/
def rgbaToHex (c : Color) : String :=
  "#" ++ padStart2 (natToHexString (jsRound (c.r * 255)).toNat)
      ++ padStart2 (natToHexString (jsRound (c.g * 255)).toNat)
      ++ padStart2 (natToHexString (jsRound (c.b * 255)).toNat)

/-! ## Style extraction -/

/-- The color of the first fill, when the fill list is present and
non-empty and its head has a color (`node.fills && node.fills.length > 0 &&
node.fills[0].color`). -/
def firstFillColor (fills : Option (List Paint)) : Option Color :=
  match fills with
  | some (fill :: _) => fill.color
  | _ => none

/-- Embeds the background-color block of `extractComponentStyle`
(src/unnamed/part_000 lines 83-101).  Only the first fill is examined.  It
contributes a color only when its `visible` flag is absent or `true`, its
type is SOLID, and it has a color; otherwise the background stays
`"transparent"` with `hasBackground = false`.  On success the background is
the hex conversion, and `hasBackground` holds exactly when the effective
opacity (default 1) is positive and the hex string is not the literal
`"transparent"`.  Returns `(backgroundColor, hasBackground)`. -/
def extractBackground (fills : Option (List Paint)) : String × Bool :=
  match fills with
  | some (fill :: _) =>
    let isVisible : Bool := fill.visible == none || fill.visible == some true
    match fill.color with
    | some c =>
      if isVisible && (fill.type == "SOLID") then
        let backgroundColor := rgbaToHex c
        let opacity := fill.opacity.getD 1
        (backgroundColor, decide (0 < opacity) && !(backgroundColor == "transparent"))
      else ("transparent", false)
    | none => ("transparent", false)
  | _ => ("transparent", false)

/-- Embeds the text-color block of `extractComponentStyle`
(src/unnamed/part_000 lines 103-113): a TEXT node's own first fill color;
otherwise, when children are present, the first fill color of the first
descendant TEXT node; otherwise `"#000000"`. -/
def extractTextColor (node : Node) : String :=
  match (if node.type = "TEXT" then firstFillColor node.fills else none) with
  | some c => rgbaToHex c
  | none =>
    match node.children with
    | some _ =>
      match findTextNode node with
      | some t =>
        match firstFillColor t.fills with
        | some c => rgbaToHex c
        | none => "#000000"
      | none => "#000000"
    | none => "#000000"

/-- The node whose font attributes are read: the node itself when it is a
TEXT node, else the first descendant TEXT node
(`node.type === 'TEXT' ? node : findTextNode(node)`). -/
def resolvedTextNode (node : Node) : Option Node :=
  if node.type = "TEXT" then some node else findTextNode node

/-- The font attributes extracted by `extractComponentStyle`
(src/unnamed/part_000 lines 118-128). -/
structure FontInfo where
  fontSize : ℚ
  fontWeight : ℚ
  textAlign : String
deriving DecidableEq

/-- Embeds the font block of `extractComponentStyle`: attributes of the
resolved text node with `|| 16`, `|| 400`, `|| 'LEFT'` defaulting, the
alignment lowercased; all defaults when no text node resolves. -/
def extractFont (node : Node) : FontInfo :=
  match resolvedTextNode node with
  | some t =>
    { fontSize := jsNumOr t.fontSize 16
      fontWeight := jsNumOr t.fontWeight 400
      textAlign := jsToLower (jsStrOr t.textAlignHorizontal "LEFT") }
  | none => { fontSize := 16, fontWeight := 400, textAlign := "left" }

/-- JS `node.strokes && node.strokes.length > 0`: a present non-empty
stroke list. -/
def strokesNonEmpty : Option (List Paint) → Bool
  | some (_ :: _) => true
  | _ => false

/-- Embeds the component-type block of `extractComponentStyle`
(src/unnamed/part_000 lines 130-161).  `hasBackground`, `cornerRadius` and
`fontWeight` are the values computed earlier in the extraction.  The name
tier checks case-insensitive substrings in order; the visual tier runs only
when no name substring matched. -/
def classifyType (node : Node) (hasBackground : Bool)
    (cornerRadius fontWeight : ℚ) : String :=
  let nameLower := jsToLower node.name
  if jsIncludes nameLower "button" || jsIncludes nameLower "btn" then
    "button"
  else if jsIncludes nameLower "text" || jsIncludes nameLower "label" ||
          jsIncludes nameLower "title" || jsIncludes nameLower "heading" then
    "text"
  else if jsIncludes nameLower "input" || jsIncludes nameLower "textbox" ||
          jsIncludes nameLower "field" then
    "input"
  else
    let isFrame : Bool :=
      node.type == "FRAME" || node.type == "COMPONENT" || node.type == "INSTANCE"
    let hasRoundedCorners : Bool := decide (4 ≤ cornerRadius)
    let hasBorder : Bool := strokesNonEmpty node.strokes
    let isButtonLike : Bool :=
      isFrame && (hasBackground || hasBorder) &&
        (hasRoundedCorners || decide (600 ≤ fontWeight))
    if node.type == "TEXT" then "text"
    else if isButtonLike then "button"
    else "text"

/-- The normalized style record produced by `extractComponentStyle`
(src/unnamed/part_000 lines 163-175).  The `fillDebug` debug string is not
modelled. -/
structure StyleRecord where
  type : String
  text : String
  width : ℚ
  height : ℚ
  backgroundColor : String
  borderRadius : ℚ
  color : String
  fontSize : ℚ
  fontWeight : ℚ
  textAlign : String
deriving DecidableEq

/-- Embeds `extractComponentStyle` (src/unnamed/part_000 lines 78-176):
dimensions with `|| 200` / `|| 50` defaults, corner radius with `|| 0`,
background, text color, text content with `|| 'Text'`, font attributes, and
the classified type. -/
def extractComponentStyle (node : Node) : StyleRecord :=
  let width := jsNumOr (node.absoluteBoundingBox.map BoundingBox.width) 200
  let height := jsNumOr (node.absoluteBoundingBox.map BoundingBox.height) 50
  let cornerRadius := jsNumOr node.cornerRadius 0
  let background := extractBackground node.fills
  let textColor := extractTextColor node
  let text := jsStrOr (extractText node) "Text"
  let font := extractFont node
  { type := classifyType node background.2 cornerRadius font.fontWeight
    text := text
    width := width
    height := height
    backgroundColor := background.1
    borderRadius := cornerRadius
    color := textColor
    fontSize := font.fontSize
    fontWeight := font.fontWeight
    textAlign := font.textAlign }

/-! ## Component enumeration -/

/-- The structural snapshot collected by `extractComponents`
(src/src/index.js lines 157-167). -/
structure ComponentDescriptor where
  id : String
  name : String
  type : String
  width : Option ℚ
  height : Option ℚ
  fills : Option (List Paint)
  strokes : Option (List Paint)
  cornerRadius : Option ℚ
  characters : Option String
deriving DecidableEq

/-- The descriptor pushed for a collected node. -/
def descriptorOf (n : Node) : ComponentDescriptor :=
  { id := n.id
    name := n.name
    type := n.type
    width := n.absoluteBoundingBox.map BoundingBox.width
    height := n.absoluteBoundingBox.map BoundingBox.height
    fills := n.fills
    strokes := n.strokes
    cornerRadius := n.cornerRadius
    characters := n.characters }

/-- The collection guard of `extractComponents`: the node types collected
as top-level entries. -/
def isCollectedType (n : Node) : Bool :=
  n.type == "COMPONENT" || n.type == "FRAME" || n.type == "RECTANGLE"

mutual

/-- Embeds `extractComponents` (src/src/index.js lines 155-175): push a
descriptor for COMPONENT/FRAME/RECTANGLE nodes, then recurse into every
child; the mutated accumulator array is modelled by explicit accumulator
passing. -/
def extractComponents (node : Node) (acc : List ComponentDescriptor) :
    List ComponentDescriptor :=
  match node with
  | .mk _ cs =>
    let acc1 := if isCollectedType node then acc ++ [descriptorOf node] else acc
    match cs with
    | some l => extractComponentsList l acc1
    | none => acc1

/-- The `node.children.forEach` loop of `extractComponents`. -/
def extractComponentsList : List Node → List ComponentDescriptor →
    List ComponentDescriptor
  | [], acc => acc
  | c :: rest, acc => extractComponentsList rest (extractComponents c acc)

end

/-! ## Identifier derivation (toPascalCase) -/

/-- Is `c` an ASCII alphanumeric character (the class kept by the
`[^a-zA-Z0-9]` replacement)? -/
def isAlnumAscii (c : Char) : Bool :=
  ('a' ≤ c && c ≤ 'z') || ('A' ≤ c && c ≤ 'Z') || ('0' ≤ c && c ≤ '9')

/-- The `.replace(/[^a-zA-Z0-9]/g, ' ')` step, one character at a time. -/
def replaceNonAlnum (c : Char) : Char := if isAlnumAscii c then c else ' '

/-- JS `s.split(' ')` over character lists: split at every space, keeping
empty words. -/
def splitOnSpace : List Char → List (List Char)
  | [] => [[]]
  | c :: rest =>
    match splitOnSpace rest with
    | [] => [[]]
    | w :: ws => if c = ' ' then [] :: w :: ws else (c :: w) :: ws

/-- The per-word map `word.charAt(0).toUpperCase() + word.slice(1).toLowerCase()`. -/
def capitalizeWord : List Char → List Char
  | [] => []
  | c :: rest => c.toUpper :: rest.map Char.toLower

/-- Embeds `toPascalCase` (src/src/index.js lines 292-298): replace every
non-alphanumeric character with a space, split on spaces, capitalize each
word, concatenate. -/
def toPascalCase (s : String) : String :=
  ⟨((splitOnSpace (s.toList.map replaceNonAlnum)).map capitalizeWord).flatten⟩

/-- One-pass reference formulation following the spec's wording: walk the
characters tracking whether a new word starts; an alphanumeric character is
uppercased at a word start and lowercased otherwise; non-alphanumeric
characters are dropped and start a new word. -/
def pascalSpecGo : Bool → List Char → List Char
  | _, [] => []
  | atWordStart, c :: rest =>
    if isAlnumAscii c then
      (if atWordStart then c.toUpper else c.toLower) :: pascalSpecGo false rest
    else pascalSpecGo true rest

/-- Reference identifier derivation from the spec's wording. -/
def pascalSpec (s : String) : String := ⟨pascalSpecGo true s.toList⟩

/-! ## Framework-component generator -/

/-- Decimal rendering of a rational, agreeing with JS number rendering on
integers (the only values any theorem relies on); the non-integral branch
renders `num/den` as a placeholder. -/
def ratToJsString (q : ℚ) : String :=
  if q.den = 1 then
    (if q.num < 0 then "-" ++ Nat.repr q.num.natAbs else Nat.repr q.num.natAbs)
  else
    (if q.num < 0 then "-" else "") ++ Nat.repr q.num.natAbs ++ "/" ++ Nat.repr q.den

/-- The values interpolated into the generated component source by
`generateReactCode` (src/src/index.js lines 224-241). -/
structure ReactCodeParts where
  componentName : String
  width : ℚ
  height : ℚ
  cornerRadius : ℚ
  backgroundColor : String
  text : String
deriving DecidableEq

/-- Embeds the narrow inline extraction of `generateReactCode`: dimensions
with `|| 200` / `|| 50` defaults, a corner radius with the `|| 8` default
(diverging from the generic extractor's 0), the first fill's color when
present (no visibility or SOLID check on this path) with default
`"#007AFF"`, text with default `"Button"`, and the PascalCase identifier. -/
def reactCodeParts (node : Node) : ReactCodeParts :=
  { componentName := toPascalCase node.name
    width := jsNumOr (node.absoluteBoundingBox.map BoundingBox.width) 200
    height := jsNumOr (node.absoluteBoundingBox.map BoundingBox.height) 50
    cornerRadius := jsNumOr node.cornerRadius 8
    backgroundColor :=
      match firstFillColor node.fills with
      | some c => rgbaToHex c
      | none => "#007AFF"
    text := jsStrOr (extractText node) "Button" }

/-- The generated source before the borderRadius line (template of
src/src/index.js lines 239-250). -/
def reactTemplateBefore (p : ReactCodeParts) : String :=
  "import React from \x27react\x27;\n\n" ++
  "export function " ++ p.componentName ++ "(\x7b onClick, children \x7d) \x7b\n" ++
  "  return (\n" ++
  "    <button\n" ++
  "      onClick=\x7bonClick\x7d\n" ++
  "      style=\x7b\x7b\n" ++
  "        width: \x27" ++ ratToJsString p.width ++ "px\x27,\n" ++
  "        height: \x27" ++ ratToJsString p.height ++ "px\x27,\n" ++
  "        backgroundColor: \x27" ++ p.backgroundColor ++ "\x27,\n" ++
  "        color: \x27#FFFFFF\x27,\n" ++
  "        border: \x27none\x27,\n"

/-- The borderRadius line of the template (src/src/index.js line 251). -/
def borderRadiusLine (cornerRadius : ℚ) : String :=
  "        borderRadius: \x27" ++ ratToJsString cornerRadius ++ "px\x27,\n"

/-- The generated source after the borderRadius line (template of
src/src/index.js lines 252-269). -/
def reactTemplateAfter (p : ReactCodeParts) : String :=
  "        fontSize: \x2716px\x27,\n" ++
  "        fontWeight: \x27600\x27,\n" ++
  "        cursor: \x27pointer\x27,\n" ++
  "        transition: \x27all 0.2s ease\x27,\n" ++
  "      \x7d\x7d\n" ++
  "      onMouseEnter=\x7b(e) => \x7b\n" ++
  "        e.target.style.opacity = \x270.8\x27;\n" ++
  "        e.target.style.transform = \x27scale(1.02)\x27;\n" ++
  "      \x7d\x7d\n" ++
  "      onMouseLeave=\x7b(e) => \x7b\n" ++
  "        e.target.style.opacity = \x271\x27;\n" ++
  "        e.target.style.transform = \x27scale(1)\x27;\n" ++
  "      \x7d\x7d\n" ++
  "    >\n" ++
  "      \x7bchildren || \x27" ++ p.text ++ "\x27\x7d\n" ++
  "    </button>\n" ++
  "  );\n" ++
  "\x7d"

/-- Embeds `generateReactCode` (src/src/index.js lines 224-270): the full
generated component source. -/
def generateReactCode (node : Node) : String :=
  let p := reactCodeParts node
  reactTemplateBefore p ++ borderRadiusLine p.cornerRadius ++ reactTemplateAfter p

/-! ## HTTP boundary (the /api/fetch-component route) -/

/-- The response value produced by the route handler: an error status and
message (with optional upstream details), or a success payload. -/
inductive ApiResponse : Type where
  | errorResp (status : ℕ) (error : String) (details : Option String)
  | okResp (component : StyleRecord) (message : String)

/-- The outcome of the outbound Figma fetch, supplied to the handler as an
explicit input (the only suspension point of the request). -/
inductive FetchOutcome : Type where
  | ok (document : Node)
  | failure (details : String)

/-- Embeds the `/api/fetch-component` route handler (src/unnamed/part_000
lines 18-63) as a pure function of the configured token, the request
parameters, and the fetch outcome: missing token → 500 configuration
error (before the fetch is consulted); missing parameters → 400; failed
fetch → 500 with upstream details; fetch succeeded but name not found →
404; otherwise the extracted style record. -/
def fetchComponentHandler (figmaToken fileKey componentName : Option String)
    (fetch : FetchOutcome) : ApiResponse :=
  if !(jsStrTruthy figmaToken) then
    .errorResp 500 "FIGMA_TOKEN not configured" none
  else if !(jsStrTruthy fileKey) || !(jsStrTruthy componentName) then
    .errorResp 400 "fileKey and componentName are required" none
  else
    match fetch with
    | .failure d => .errorResp 500 "Failed to fetch from Figma" (some d)
    | .ok doc =>
      match findNodeByName doc (componentName.getD "") with
      | none =>
        .errorResp 404 ("Component \"" ++ componentName.getD "" ++ "\" not found") none
      | some c =>
        .okResp (extractComponentStyle c)
          ("Found \"" ++ componentName.getD "" ++ "\" in Figma!")

/-! ## Concrete fixtures used by witnesses and counterexamples -/

/-- A node-data record with every attribute absent. -/
def emptyData : NodeData :=
  { id := ""
    name := ""
    type := ""
    absoluteBoundingBox := none
    cornerRadius := none
    fills := none
    strokes := none
    characters := none
    fontSize := none
    fontWeight := none
    textAlignHorizontal := none }

/-- A small document tree with a duplicate name: pre-order is
Document, Frame A, Leaf, Target(first), Target(second). -/
def demoTree : Node :=
  .mk { emptyData with id := "0"
                       name := "Document"
                       type := "DOCUMENT" }
    (some
      [.mk { emptyData with id := "1"
                            name := "Frame A"
                            type := "FRAME" }
        (some [.mk { emptyData with id := "2"
                                    name := "Leaf"
                                    type := "RECTANGLE" } none,
               .mk { emptyData with id := "3"
                                    name := "Target"
                                    type := "RECTANGLE" } none]),
       .mk { emptyData with id := "4"
                            name := "Target"
                            type := "TEXT" } none])

/-- A node named "Submit Button" whose visual attributes would otherwise
classify as text (no fills, no strokes, no rounded corners). -/
def submitButtonNode : Node :=
  .mk { emptyData with id := "sb"
                       name := "Submit Button"
                       type := "RECTANGLE" } none

/-- A plain visible solid black fill. -/
def blackFill : Paint :=
  { type := "SOLID", color := some ⟨0, 0, 0⟩, opacity := none, visible := none }

/-- A FRAME named "Card" with a visible solid fill and cornerRadius 8. -/
def cardButtonNode : Node :=
  .mk { emptyData with id := "cb"
                       name := "Card"
                       type := "FRAME"
                       cornerRadius := some 8
                       fills := some [blackFill] } none

/-- A FRAME named "Card" with no fills, no strokes and cornerRadius 0. -/
def cardPlainNode : Node :=
  .mk { emptyData with id := "cp"
                       name := "Card"
                       type := "FRAME"
                       cornerRadius := some 0 } none

/-- A solid black fill whose `visible` flag is `false`. -/
def invisiblePaint : Paint :=
  { type := "SOLID", color := some ⟨0, 0, 0⟩, opacity := none, visible := some false }

/-- A node whose first fill is invisible. -/
def invisibleFillNode : Node :=
  .mk { emptyData with id := "if"
                       name := "Box"
                       type := "FRAME"
                       fills := some [invisiblePaint] } none

/-- A node with a present-but-empty `characters` attribute and a descendant
with non-empty text. -/
def emptyCharsNode : Node :=
  .mk { emptyData with id := "ec"
                       name := "Wrapper"
                       type := "FRAME"
                       characters := some "" }
    (some [.mk { emptyData with id := "ec1"
                                name := "Inner"
                                type := "TEXT"
                                characters := some "Hello" } none])

/-- A TEXT node with zero font attributes. -/
def zeroTextChild : Node :=
  .mk { emptyData with id := "zd1"
                       name := "ZeroText"
                       type := "TEXT"
                       fontSize := some 0
                       fontWeight := some 0 } none

/-- A node exercising the zero-versus-absent defaulting at the root: a
present bounding box with zero extents and cornerRadius 0. -/
def zeroDefaultsNode : Node :=
  .mk { emptyData with id := "zd"
                       name := "Zero"
                       type := "FRAME"
                       absoluteBoundingBox := some ⟨0, 0⟩
                       cornerRadius := some 0 }
    (some [zeroTextChild])

/-- A single-COMPONENT document: a COMPONENT root holding one TEXT child. -/
def componentWithTextChild : Node :=
  .mk { emptyData with id := "c0"
                       name := "Button"
                       type := "COMPONENT" }
    (some [.mk { emptyData with id := "c1"
                                name := "Label"
                                type := "TEXT"
                                characters := some "Click" } none])

/-- The sixteen lowercase hexadecimal digit characters (digit characters
of the values 0 through 15). -/
def hexDigitsLower : List Char := (List.range 16).map Nat.digitChar

/-! ## Supporting lemmas -/

/-- String append concatenates the underlying character lists. -/
theorem toList_append (s t : String) : (s ++ t).toList = s.toList ++ t.toList := by
  cases s
  cases t
  rfl

mutual

/-- The tree search agrees with `find?` over the pre-order flattening. -/
theorem findNodeByName_eq_find (n : Node) (nm : String) :
    findNodeByName n nm = (preorder n).find? (fun m => m.name = nm) := by
  match n with
  | .mk d cs =>
    match cs with
    | none =>
      by_cases h : d.name = nm <;>
        simp [findNodeByName, preorder, Node.name, Node.data, List.find?, h]
    | some l =>
      rw [findNodeByName, preorder]
      simp only [List.find?_cons]
      by_cases h : d.name = nm
      · simp [h, Node.name, Node.data]
      · simpa [h, Node.name, Node.data] using findNodeByNameList_eq_find l nm

/-- The children loop of the tree search agrees with `find?` over the
pre-order flattening of the forest. -/
theorem findNodeByNameList_eq_find (l : List Node) (nm : String) :
    findNodeByNameList l nm = (preorderList l).find? (fun m => m.name = nm) := by
  match l with
  | [] => simp [findNodeByNameList, preorderList]
  | c :: rest =>
    rw [findNodeByNameList, preorderList, List.find?_append,
      ← findNodeByName_eq_find c nm, ← findNodeByNameList_eq_find rest nm]
    cases findNodeByName c nm <;> simp

end

/-! ## C1: tree search semantics -/

/-- C1: `findNodeByName` traverses depth-first pre-order — it equals
`find?` over the pre-order flattening (whose head is the root), any
returned node's name equals the searched name exactly, duplicates are
resolved in favor of the pre-order-first occurrence (all consequences of
the `find?` characterization), and when no node matches the result is
`none` rather than an error. -/
theorem findNodeByName_preorder_spec (t : Node) (nm : String) :
    findNodeByName t nm = (preorder t).find? (fun m => m.name = nm)
    ∧ (preorder t).head? = some t
    ∧ (∀ m, findNodeByName t nm = some m → m.name = nm)
    ∧ (findNodeByName t nm = none ↔ ∀ m ∈ preorder t, m.name ≠ nm) := by
  refine ⟨findNodeByName_eq_find t nm, ?_, ?_, ?_⟩
  · cases t with
    | mk d cs => simp [preorder]
  · intro m hm
    rw [findNodeByName_eq_find] at hm
    simpa using List.find?_some hm
  · rw [findNodeByName_eq_find, List.find?_eq_none]
    simp

/-- Witness for C1: in the concrete `demoTree`, searching a name that is
absent yields `none` (via the theorem, with its universally quantified
hypothesis discharged by evaluation), and searching the duplicated name
"Target" returns the pre-order-first occurrence (id "3", not id "4"). -/
theorem findNodeByName_preorder_spec_witness :
    findNodeByName demoTree "Missing" = none
    ∧ (findNodeByName demoTree "Target").map Node.id = some "3" :=
  ⟨(findNodeByName_preorder_spec demoTree "Missing").2.2.2.mpr (by decide), by rfl⟩

/-! ## C5: text content -/

/-- `truthyChars` only produces non-empty strings. -/
theorem truthyChars_ne_empty {x : Option String} {t : String}
    (h : truthyChars x = some t) : t ≠ "" := by
  match x with
  | none => simp [truthyChars] at h
  | some u =>
    by_cases hu : u = "" <;> simp [truthyChars, hu] at h
    exact h ▸ hu

/-- The head of a truthy-characters filtering is non-empty. -/
theorem head_filterMap_truthyChars_ne_empty (l : List Node) (t : String)
    (h : (l.filterMap (fun m => truthyChars m.characters)).head? = some t) :
    t ≠ "" := by
  cases hl : l.filterMap (fun m => truthyChars m.characters) with
  | nil => rw [hl] at h; simp at h
  | cons a as =>
    rw [hl] at h
    simp only [List.head?_cons, Option.some.injEq] at h
    have ha : a ∈ l.filterMap (fun m => truthyChars m.characters) := by
      rw [hl]; exact List.mem_cons_self a as
    obtain ⟨m, _, hm⟩ := List.mem_filterMap.mp ha
    exact h ▸ truthyChars_ne_empty hm

mutual

/-- `extractText` returns the first truthy `characters` value in pre-order. -/
theorem extractText_eq_head (n : Node) :
    extractText n = ((preorder n).filterMap (fun m => truthyChars m.characters)).head? := by
  match n with
  | .mk d cs =>
    rw [extractText.eq_def, preorder.eq_def]
    match hd : d.characters with
    | none =>
      match cs with
      | none => simp [jsStrTruthy, truthyChars, Node.characters, Node.data, hd]
      | some l =>
        simpa [jsStrTruthy, truthyChars, Node.characters, Node.data, hd] using
          extractTextList_eq_head l
    | some u =>
      by_cases hu : u = ""
      · match cs with
        | none => simp [jsStrTruthy, truthyChars, Node.characters, Node.data, hd, hu]
        | some l =>
          simpa [jsStrTruthy, truthyChars, Node.characters, Node.data, hd, hu] using
            extractTextList_eq_head l
      · simp [jsStrTruthy, truthyChars, Node.characters, Node.data, hd, hu]

/-- The children loop of `extractText` returns the first truthy
`characters` value in the pre-order flattening of the forest. -/
theorem extractTextList_eq_head (l : List Node) :
    extractTextList l = ((preorderList l).filterMap (fun m => truthyChars m.characters)).head? := by
  match l with
  | [] => simp [extractTextList, preorderList]
  | c :: rest =>
    rw [extractTextList, preorderList]
    rw [List.filterMap_append, List.head?_append]
    match hc : extractText c with
    | some t =>
      have ht : ((preorder c).filterMap (fun m => truthyChars m.characters)).head? = some t := by
        rw [← extractText_eq_head]; exact hc
      have hne : t ≠ "" := head_filterMap_truthyChars_ne_empty _ _ ht
      simp [ht, hne]
    | none =>
      have ht : ((preorder c).filterMap (fun m => truthyChars m.characters)).head? = none := by
        rw [← extractText_eq_head]; exact hc
      simpa [ht] using extractTextList_eq_head rest

end

/-- C5 as stated is false: a node may carry a present-but-empty
`characters` attribute, which the source skips (JS truthiness) in favor of
a descendant's text.  On `emptyCharsNode` (own `characters = ""`, child
text "Hello") the claim predicts `""` but the code extracts "Hello". -/
theorem extractText_present_empty_counterexample :
    emptyCharsNode.characters = some ""
    ∧ (extractComponentStyle emptyCharsNode).text = "Hello"
    ∧ (extractComponentStyle emptyCharsNode).text ≠ "" := by
  refine ⟨rfl, rfl, by decide⟩

/-- C5 (amended): the extracted text content is the node's own
`characters` when present and non-empty; otherwise the first present
non-empty `characters` among its descendants in depth-first pre-order;
otherwise the default "Text".  Equivalently, it is the head of the
pre-order truthy-`characters` sequence, defaulted to "Text". -/
theorem extractText_content_spec (n : Node) :
    (extractComponentStyle n).text =
      (((preorder n).filterMap (fun m => truthyChars m.characters)).head?).getD "Text" := by
  have hproj : (extractComponentStyle n).text = jsStrOr (extractText n) "Text" := rfl
  rw [hproj, extractText_eq_head]
  match hh : ((preorder n).filterMap (fun m => truthyChars m.characters)).head? with
  | none => rw [hh]; rfl
  | some t =>
    have hne := head_filterMap_truthyChars_ne_empty _ _ hh
    rw [hh]
    simp [jsStrOr, hne]

/-! ## C8: component enumeration -/

mutual

/-- `extractComponents` appends, after the accumulator, the descriptors of
exactly the collected-type nodes in pre-order. -/
theorem extractComponents_eq_filter (n : Node) (acc : List ComponentDescriptor) :
    extractComponents n acc =
      acc ++ ((preorder n).filter isCollectedType).map descriptorOf := by
  match n with
  | .mk d cs =>
    match cs with
    | none =>
      by_cases h : isCollectedType (Node.mk d none) = true <;>
        simp [extractComponents.eq_def, preorder.eq_def, h]
    | some l =>
      have hl := extractComponentsList_eq_filter l
      by_cases h : isCollectedType (Node.mk d (some l)) = true <;>
        simp [extractComponents.eq_def, preorder.eq_def, h, hl, List.append_assoc]

/-- The forEach loop of `extractComponents` over a forest. -/
theorem extractComponentsList_eq_filter (l : List Node) (acc : List ComponentDescriptor) :
    extractComponentsList l acc =
      acc ++ ((preorderList l).filter isCollectedType).map descriptorOf := by
  match l with
  | [] => simp [extractComponentsList, preorderList]
  | c :: rest =>
    rw [extractComponentsList, preorderList,
      extractComponentsList_eq_filter rest, extractComponents_eq_filter c]
    simp [List.filter_append, List.append_assoc]

end

/-- C8: the component enumerator collects, in depth-first pre-order
(document order), one descriptor for exactly those nodes whose type is
COMPONENT, FRAME or RECTANGLE, descending into every node's children; and
on a COMPONENT root with one nested TEXT child it yields exactly the
root's descriptor. -/
theorem extractComponents_spec :
    (∀ root : Node,
      extractComponents root [] =
        ((preorder root).filter isCollectedType).map descriptorOf)
    ∧ extractComponents componentWithTextChild [] = [descriptorOf componentWithTextChild] := by
  constructor
  · intro root
    simpa using extractComponents_eq_filter root []
  · rfl

/-! ## C2: name tier of the classifier -/

/-- C2: the name tier matches case-insensitive substrings of the node's
name in order — "button"/"btn" wins first and classifies as button, else
the text group ("text"/"label"/"title"/"heading") classifies as text, else
the input group ("input"/"textbox"/"field") classifies as input — and any
name-tier hit decides the type outright for every combination of visual
attributes; in particular every node named "Submit Button" classifies as
button. -/
theorem name_tier_spec (n : Node) :
    ((jsIncludes (jsToLower n.name) "button" || jsIncludes (jsToLower n.name) "btn") = true →
      (extractComponentStyle n).type = "button")
    ∧ ((jsIncludes (jsToLower n.name) "button" || jsIncludes (jsToLower n.name) "btn") = false →
       (jsIncludes (jsToLower n.name) "text" || jsIncludes (jsToLower n.name) "label" ||
        jsIncludes (jsToLower n.name) "title" || jsIncludes (jsToLower n.name) "heading") = true →
      (extractComponentStyle n).type = "text")
    ∧ ((jsIncludes (jsToLower n.name) "button" || jsIncludes (jsToLower n.name) "btn") = false →
       (jsIncludes (jsToLower n.name) "text" || jsIncludes (jsToLower n.name) "label" ||
        jsIncludes (jsToLower n.name) "title" || jsIncludes (jsToLower n.name) "heading") = false →
       (jsIncludes (jsToLower n.name) "input" || jsIncludes (jsToLower n.name) "textbox" ||
        jsIncludes (jsToLower n.name) "field") = true →
      (extractComponentStyle n).type = "input")
    ∧ (n.name = "Submit Button" → (extractComponentStyle n).type = "button") := by
  have hp : (extractComponentStyle n).type
      = classifyType n (extractBackground n.fills).2 (jsNumOr n.cornerRadius 0)
          (extractFont n).fontWeight := rfl
  refine ⟨?_, ?_, ?_, ?_⟩
  · intro h
    rw [hp, classifyType]
    simp [h]
  · intro h1 h2
    rw [hp, classifyType]
    simp [h1, h2]
  · intro h1 h2 h3
    rw [hp, classifyType]
    simp [h1, h2, h3]
  · intro hnm
    have hb : (jsIncludes (jsToLower n.name) "button" || jsIncludes (jsToLower n.name) "btn") = true := by
      rw [hnm]; decide
    rw [hp, classifyType]
    simp [hb]

/-- Witness for C2: the concrete node named "Submit Button", whose visual
attributes (no fills, no strokes, no rounded corners, RECTANGLE type)
would otherwise classify as text, classifies as button via the name
tier. -/
theorem name_tier_spec_witness :
    submitButtonNode.name = "Submit Button"
    ∧ (extractComponentStyle submitButtonNode).type = "button" :=
  ⟨rfl, (name_tier_spec submitButtonNode).2.2.2 rfl⟩

/-! ## C3: visual tier of the classifier -/

/-- A present non-empty stroke list, characterized. -/
theorem strokesNonEmpty_iff (x : Option (List Paint)) :
    strokesNonEmpty x = true ↔ ∃ p rest, x = some (p :: rest) := by
  match x with
  | none => simp [strokesNonEmpty]
  | some [] => simp [strokesNonEmpty]
  | some (p :: rest) => simp [strokesNonEmpty]

/-- C3: when no name-tier substring matches, a TEXT node classifies as
text (hard rule); otherwise the node classifies as button exactly when it
is frame-like (FRAME, COMPONENT or INSTANCE) and has a background or a
border and has rounded corners (radius ≥ 4) or bold text (weight ≥ 600);
in every other case it classifies as text, and the visual tier never
produces input. -/
theorem visual_tier_spec (n : Node)
    (h1 : (jsIncludes (jsToLower n.name) "button" || jsIncludes (jsToLower n.name) "btn") = false)
    (h2 : (jsIncludes (jsToLower n.name) "text" || jsIncludes (jsToLower n.name) "label" ||
           jsIncludes (jsToLower n.name) "title" || jsIncludes (jsToLower n.name) "heading") = false)
    (h3 : (jsIncludes (jsToLower n.name) "input" || jsIncludes (jsToLower n.name) "textbox" ||
           jsIncludes (jsToLower n.name) "field") = false) :
    (n.type = "TEXT" → (extractComponentStyle n).type = "text")
    ∧ (n.type ≠ "TEXT" →
        ((extractComponentStyle n).type = "button" ↔
          ((n.type = "FRAME" ∨ n.type = "COMPONENT" ∨ n.type = "INSTANCE")
            ∧ ((extractBackground n.fills).2 = true ∨ (∃ p rest, n.strokes = some (p :: rest)))
            ∧ (4 ≤ jsNumOr n.cornerRadius 0 ∨ 600 ≤ (extractFont n).fontWeight))))
    ∧ ((extractComponentStyle n).type = "button" ∨ (extractComponentStyle n).type = "text")
    ∧ (extractComponentStyle n).type ≠ "input" := by
  have hp : (extractComponentStyle n).type
      = classifyType n (extractBackground n.fills).2 (jsNumOr n.cornerRadius 0)
          (extractFont n).fontWeight := rfl
  have hE : (extractComponentStyle n).type =
      (if n.type == "TEXT" then "text"
       else if (n.type == "FRAME" || n.type == "COMPONENT" || n.type == "INSTANCE")
              && ((extractBackground n.fills).2 || strokesNonEmpty n.strokes)
              && (decide (4 ≤ jsNumOr n.cornerRadius 0)
                  || decide (600 ≤ (extractFont n).fontWeight))
            then "button" else "text") := by
    rw [hp, classifyType]
    simp [h1, h2, h3]
  have hBP : ((n.type == "FRAME" || n.type == "COMPONENT" || n.type == "INSTANCE")
              && ((extractBackground n.fills).2 || strokesNonEmpty n.strokes)
              && (decide (4 ≤ jsNumOr n.cornerRadius 0)
                  || decide (600 ≤ (extractFont n).fontWeight))) = true ↔
      ((n.type = "FRAME" ∨ n.type = "COMPONENT" ∨ n.type = "INSTANCE")
        ∧ ((extractBackground n.fills).2 = true ∨ (∃ p rest, n.strokes = some (p :: rest)))
        ∧ (4 ≤ jsNumOr n.cornerRadius 0 ∨ 600 ≤ (extractFont n).fontWeight)) := by
    rw [← strokesNonEmpty_iff]
    simp [Bool.and_eq_true, Bool.or_eq_true, and_assoc, or_assoc]
  refine ⟨?_, ?_, ?_, ?_⟩
  · intro hT
    rw [hE]
    simp [hT]
  · intro hNT
    have hne : (n.type == "TEXT") = false := by simp [hNT]
    rw [hE, hne]
    constructor
    · intro hb
      by_cases hB : ((n.type == "FRAME" || n.type == "COMPONENT" || n.type == "INSTANCE")
              && ((extractBackground n.fills).2 || strokesNonEmpty n.strokes)
              && (decide (4 ≤ jsNumOr n.cornerRadius 0)
                  || decide (600 ≤ (extractFont n).fontWeight))) = true
      · exact hBP.mp hB
      · simp [hB] at hb
    · intro hP
      simp [hBP.mpr hP]
  · rw [hE]
    split_ifs <;> simp
  · rw [hE]
    split_ifs <;> simp

/-- The hex conversion of black. -/
theorem rgbaToHex_black : rgbaToHex ⟨0, 0, 0⟩ = "#000000" := by
  have h : jsRound ((0 : ℚ) * 255) = 0 := by norm_num [jsRound]
  simp only [rgbaToHex, h]
  rfl

/-- The background extracted from a plain visible solid black fill. -/
theorem extractBackground_blackFill :
    extractBackground (some [blackFill]) = ("#000000", true) := by
  simp [extractBackground, blackFill, rgbaToHex_black, zero_lt_one]

/-- Witness for C3 at two concrete nodes: the FRAME "Card" carrying a
visible solid fill and cornerRadius 8 classifies as button via the visual
tier, and the FRAME "Card" with no fills, no strokes and cornerRadius 0
classifies as text. -/
theorem visual_tier_spec_witness :
    (extractComponentStyle cardButtonNode).type = "button"
    ∧ (extractComponentStyle cardPlainNode).type = "text" := by
  constructor
  · have h := visual_tier_spec cardButtonNode (by decide) (by decide) (by decide)
    refine (h.2.1 (by decide)).mpr ⟨Or.inl rfl, Or.inl ?_, Or.inl (by decide)⟩
    rw [show cardButtonNode.fills = some [blackFill] from rfl, extractBackground_blackFill]
  · have h := visual_tier_spec cardPlainNode (by decide) (by decide) (by decide)
    rcases h.2.2.1 with hb | ht
    · exfalso
      obtain ⟨_, hBg, _⟩ := (h.2.1 (by decide)).mp hb
      rcases hBg with hbg | ⟨p, rest, hst⟩
      · rw [show cardPlainNode.fills = none from rfl] at hbg
        simp [extractBackground] at hbg
      · rw [show cardPlainNode.strokes = none from rfl] at hst
        simp at hst
    · exact ht

/-! ## C4: background extraction -/

/-- C4: background extraction examines only the first fill; the fill
contributes a color only when its `visible` flag is true or absent, its
type is SOLID and it has a color, the result otherwise staying
`("transparent", false)` (in particular for absent or empty fill lists and
for an invisible first fill); when all checks pass the background is the
hex conversion of the color and `hasBackground` holds exactly when the
effective opacity (default 1) is positive and the hex string is not the
literal "transparent".  The record's `backgroundColor` field is the first
component of this extraction. -/
theorem background_extraction_spec (n : Node) :
    (n.fills = none → extractBackground n.fills = ("transparent", false))
    ∧ (n.fills = some [] → extractBackground n.fills = ("transparent", false))
    ∧ (∀ f rest, n.fills = some (f :: rest) →
        (f.visible = some false ∨ f.type ≠ "SOLID" ∨ f.color = none) →
        extractBackground n.fills = ("transparent", false))
    ∧ (∀ f rest c, n.fills = some (f :: rest) → f.visible ≠ some false →
        f.type = "SOLID" → f.color = some c →
        (extractBackground n.fills).1 = rgbaToHex c
        ∧ ((extractBackground n.fills).2 = true ↔
            (0 < f.opacity.getD 1 ∧ rgbaToHex c ≠ "transparent")))
    ∧ (∀ f rest rest',
        extractBackground (some (f :: rest)) = extractBackground (some (f :: rest')))
    ∧ (extractComponentStyle n).backgroundColor = (extractBackground n.fills).1 := by
  refine ⟨?_, ?_, ?_, ?_, ?_, rfl⟩
  · intro h
    rw [h]
    rfl
  · intro h
    rw [h]
    rfl
  · intro f rest hf hbad
    rw [hf]
    rcases hbad with hv | ht | hc
    · match hc : f.color with
      | none => simp [extractBackground, hc]
      | some c => simp [extractBackground, hc, hv]
    · match hc : f.color with
      | none => simp [extractBackground, hc]
      | some c => simp [extractBackground, hc, ht]
    · simp [extractBackground, hc]
  · intro f rest c hf hv ht hc
    rw [hf]
    have hvb : (f.visible == none || f.visible == some true) = true := by
      match hx : f.visible with
      | none => rfl
      | some true => rfl
      | some false => exact absurd hx hv
    simp only [extractBackground, hc, hvb, ht]
    constructor
    · simp
    · simp [Bool.and_eq_true, decide_eq_true_eq]
  · intro f rest rest'
    rfl

/-- Witness for C4: the concrete node whose single fill is solid black but
marked invisible extracts a transparent background with
`hasBackground = false`. -/
theorem background_extraction_spec_witness :
    invisibleFillNode.fills = some [invisiblePaint]
    ∧ extractBackground invisibleFillNode.fills = ("transparent", false) :=
  ⟨rfl, (background_extraction_spec invisibleFillNode).2.2.1 invisiblePaint [] rfl (Or.inl rfl)⟩

/-! ## C6: hex color conversion -/

/-- A channel in `[0,1]` scales and rounds into `[0,255]`. -/
theorem jsRound_channel_bounds (q : ℚ) (h0 : 0 ≤ q) (h1 : q ≤ 1) :
    0 ≤ jsRound (q * 255) ∧ jsRound (q * 255) ≤ 255 := by
  constructor
  · rw [jsRound]
    exact Int.le_floor.mpr (by push_cast; linarith)
  · rw [jsRound]
    have h : ⌊(q * 255 + 1/2 : ℚ)⌋ < 256 := by
      apply Int.floor_lt.mpr
      push_cast
      linarith
    omega

set_option maxRecDepth 4000 in
/-- Every byte renders as exactly two lowercase hex digits after
padding. -/
theorem hexByte_render : ∀ n : ℕ, n < 256 →
    (padStart2 (natToHexString n)).length = 2
    ∧ ∀ ch ∈ (padStart2 (natToHexString n)).toList, ch ∈ hexDigitsLower := by decide

/-- C6: for channels in `[0,1]`, `rgbaToHex` renders "#" followed by the
two-lowercase-hex-digit rendering of each channel's `round(c*255)` (which
already lies in `[0,255]`, so clamping is the identity); the result has
exactly 7 characters, starts with '#', and uses only lowercase hex digits;
with the three cited evaluations. -/
theorem rgbaToHex_spec (r g b : ℚ)
    (hr0 : 0 ≤ r) (hr1 : r ≤ 1) (hg0 : 0 ≤ g) (hg1 : g ≤ 1)
    (hb0 : 0 ≤ b) (hb1 : b ≤ 1) :
    rgbaToHex ⟨r, g, b⟩ =
      "#" ++ padStart2 (natToHexString (jsRound (r * 255)).toNat)
          ++ padStart2 (natToHexString (jsRound (g * 255)).toNat)
          ++ padStart2 (natToHexString (jsRound (b * 255)).toNat)
    ∧ (0 ≤ jsRound (r * 255) ∧ jsRound (r * 255) ≤ 255)
    ∧ (0 ≤ jsRound (g * 255) ∧ jsRound (g * 255) ≤ 255)
    ∧ (0 ≤ jsRound (b * 255) ∧ jsRound (b * 255) ≤ 255)
    ∧ (rgbaToHex ⟨r, g, b⟩).length = 7
    ∧ (rgbaToHex ⟨r, g, b⟩).toList.head? = some '#'
    ∧ (∀ ch ∈ (rgbaToHex ⟨r, g, b⟩).toList.tail, ch ∈ hexDigitsLower)
    ∧ rgbaToHex ⟨1, 0, 0⟩ = "#ff0000"
    ∧ rgbaToHex ⟨0, 0, 0⟩ = "#000000"
    ∧ rgbaToHex ⟨1/2, 1/2, 1/2⟩ = "#808080" := by
  have hrB := jsRound_channel_bounds r hr0 hr1
  have hgB := jsRound_channel_bounds g hg0 hg1
  have hbB := jsRound_channel_bounds b hb0 hb1
  have hrn : (jsRound (r * 255)).toNat < 256 := by omega
  have hgn : (jsRound (g * 255)).toNat < 256 := by omega
  have hbn : (jsRound (b * 255)).toNat < 256 := by omega
  obtain ⟨hlr, hmr⟩ := hexByte_render _ hrn
  obtain ⟨hlg, hmg⟩ := hexByte_render _ hgn
  obtain ⟨hlb, hmb⟩ := hexByte_render _ hbn
  have e1 : jsRound ((1 : ℚ) * 255) = 255 := by norm_num [jsRound]
  have e0 : jsRound ((0 : ℚ) * 255) = 0 := by norm_num [jsRound]
  have eh : jsRound ((1/2 : ℚ) * 255) = 128 := by norm_num [jsRound]
  refine ⟨rfl, hrB, hgB, hbB, ?_, ?_, ?_, ?_, ?_, ?_⟩
  · simp [rgbaToHex, String.length_append, hlr, hlg, hlb,
      (by decide : ("#" : String).length = 1)]
  · simp [rgbaToHex, toList_append]
  · intro ch hch
    rw [show rgbaToHex ⟨r, g, b⟩ =
          "#" ++ padStart2 (natToHexString (jsRound (r * 255)).toNat)
              ++ padStart2 (natToHexString (jsRound (g * 255)).toNat)
              ++ padStart2 (natToHexString (jsRound (b * 255)).toNat) from rfl,
        toList_append, toList_append, toList_append] at hch
    simp only [List.append_assoc, show ("#" : String).toList = ['#'] from rfl,
      List.cons_append, List.nil_append, List.tail_cons, List.mem_append] at hch
    rcases hch with h | h | h
    · exact hmr ch h
    · exact hmg ch h
    · exact hmb ch h
  · simp only [rgbaToHex, e1, e0]
    rfl
  · simp only [rgbaToHex, e0]
    rfl
  · simp only [rgbaToHex, eh]
    rfl

/-- Witness for C6 at the channel triple (1, 0, 0): the range hypotheses
hold by evaluation, and the instantiated conversion has the 7-character
shape. -/
theorem rgbaToHex_spec_witness :
    (0 ≤ (1 : ℚ) ∧ (1 : ℚ) ≤ 1 ∧ 0 ≤ (0 : ℚ) ∧ (0 : ℚ) ≤ 1)
    ∧ (rgbaToHex ⟨1, 0, 0⟩).length = 7 :=
  ⟨⟨by decide, by decide, by decide, by decide⟩,
    (rgbaToHex_spec 1 0 0 (by decide) (by decide) (by decide) (by decide)
      (by decide) (by decide)).2.2.2.2.1⟩

/-! ## C7: boundary error signaling -/

/-- C7: at the route boundary, a missing credential yields the 500
configuration error without consulting the fetch outcome (the handler's
result is independent of it); an upstream failure yields the 500 fetch
error carrying the upstream details; a successful fetch whose tree lacks
the requested name yields the 404 not-found outcome; and the three
outcomes are pairwise distinct values, so the immediate caller can
distinguish them. -/
theorem boundary_outcomes_spec :
    (∀ tok fk cn f f', jsStrTruthy tok = false →
      fetchComponentHandler tok fk cn f = fetchComponentHandler tok fk cn f'
      ∧ fetchComponentHandler tok fk cn f
          = .errorResp 500 "FIGMA_TOKEN not configured" none)
    ∧ (∀ tok fk cn d, jsStrTruthy tok = true →
        jsStrTruthy fk = true → jsStrTruthy cn = true →
        fetchComponentHandler tok fk cn (.failure d)
          = .errorResp 500 "Failed to fetch from Figma" (some d))
    ∧ (∀ tok fk cn doc, jsStrTruthy tok = true →
        jsStrTruthy fk = true → jsStrTruthy cn = true →
        findNodeByName doc (cn.getD "") = none →
        fetchComponentHandler tok fk cn (.ok doc)
          = .errorResp 404 ("Component \"" ++ cn.getD "" ++ "\" not found") none)
    ∧ (∀ nm d,
        (ApiResponse.errorResp 404 ("Component \"" ++ nm ++ "\" not found") none
          ≠ .errorResp 500 "Failed to fetch from Figma" (some d))
        ∧ (ApiResponse.errorResp 404 ("Component \"" ++ nm ++ "\" not found") none
          ≠ .errorResp 500 "FIGMA_TOKEN not configured" none)
        ∧ (ApiResponse.errorResp 500 "Failed to fetch from Figma" (some d)
          ≠ .errorResp 500 "FIGMA_TOKEN not configured" none)) := by
  refine ⟨?_, ?_, ?_, ?_⟩
  · intro tok fk cn f f' h
    rw [fetchComponentHandler.eq_def, fetchComponentHandler.eq_def, h]
    simp
  · intro tok fk cn d htok hfk hcn
    rw [fetchComponentHandler.eq_def, htok, hfk, hcn]
    rfl
  · intro tok fk cn doc htok hfk hcn hfind
    rw [fetchComponentHandler.eq_def, htok, hfk, hcn]
    simp [hfind]
  · intro nm d
    refine ⟨?_, ?_, ?_⟩ <;> (intro h; simp at h)

/-- Witness for C7: with a configured token, both request parameters
present, and a fetched tree that lacks the requested name, the handler
returns the 404 not-found outcome. -/
theorem boundary_outcomes_spec_witness :
    jsStrTruthy (some "token") = true
    ∧ findNodeByName demoTree "Missing" = none
    ∧ fetchComponentHandler (some "token") (some "filekey") (some "Missing")
        (.ok demoTree)
      = .errorResp 404 ("Component \"" ++ "Missing" ++ "\" not found") none :=
  ⟨by decide, by rfl,
    boundary_outcomes_spec.2.2.1 (some "token") (some "filekey") (some "Missing")
      demoTree (by decide) (by decide) (by decide) (by rfl)⟩

/-! ## C9: identifier derivation -/

/-- `splitOnSpace` always returns at least one (possibly empty) word. -/
theorem splitOnSpace_ne_nil (l : List Char) : splitOnSpace l ≠ [] := by
  match l with
  | [] => simp [splitOnSpace]
  | c :: rest =>
    rw [splitOnSpace.eq_def]
    match h : splitOnSpace rest with
    | [] => simp [h]
    | w :: ws => by_cases hc : c = ' ' <;> simp [h, hc]

/-- The word pipeline (replace, split, capitalize, concatenate) agrees
with the one-pass formulation, in both the word-start and mid-word
states. -/
theorem pascal_words_eq (l : List Char) :
    ((splitOnSpace (l.map replaceNonAlnum)).map capitalizeWord).flatten = pascalSpecGo true l
    ∧ ((splitOnSpace (l.map replaceNonAlnum)).headD []).map Char.toLower ++
        (((splitOnSpace (l.map replaceNonAlnum)).tail).map capitalizeWord).flatten
        = pascalSpecGo false l := by
  induction l with
  | nil =>
    constructor <;> simp [splitOnSpace, pascalSpecGo, capitalizeWord]
  | cons c rest ih =>
    obtain ⟨ih1, ih2⟩ := ih
    match hsp : splitOnSpace (rest.map replaceNonAlnum) with
    | [] => exact absurd hsp (splitOnSpace_ne_nil _)
    | w :: ws =>
      rw [hsp] at ih1 ih2
      simp only [List.headD_cons, List.tail_cons] at ih2
      by_cases hc : isAlnumAscii c = true
      · have hrep : replaceNonAlnum c = c := by rw [replaceNonAlnum, if_pos hc]
        have hcs : ¬(c = ' ') := by
          intro h
          subst h
          exact absurd hc (by decide)
        constructor
        · simp only [List.map_cons, hrep, splitOnSpace, hsp, if_neg hcs]
          simp only [List.map_cons, List.flatten_cons, capitalizeWord]
          simp only [pascalSpecGo, hc, if_pos, if_true]
          rw [← ih2]
          simp
        · simp only [List.map_cons, hrep, splitOnSpace, hsp, if_neg hcs]
          simp only [List.headD_cons, List.tail_cons, List.map_cons, capitalizeWord]
          simp only [pascalSpecGo, hc, if_true]
          rw [← ih2]
          simp
      · have hrep : replaceNonAlnum c = ' ' := by rw [replaceNonAlnum, if_neg hc]
        constructor
        · simpa [splitOnSpace, hsp, hrep, capitalizeWord, pascalSpecGo, hc] using ih1
        · simpa [splitOnSpace, hsp, hrep, capitalizeWord, pascalSpecGo, hc] using ih1

/-- C9: the emitted identifier replaces every non-alphanumeric character
with a space, splits on spaces, capitalizes each word (upper first letter,
lower rest) and concatenates — equivalently, the one-pass
`pascalSpec` — and "primary-cta!!" produces "PrimaryCta", which is the
identifier the framework-component generator emits for a node of that
name. -/
theorem pascal_identifier_spec :
    (∀ s, toPascalCase s = pascalSpec s)
    ∧ toPascalCase "primary-cta!!" = "PrimaryCta"
    ∧ (reactCodeParts (.mk { emptyData with name := "primary-cta!!" } none)).componentName
        = "PrimaryCta" := by
  refine ⟨?_, by decide, by decide⟩
  intro s
  rw [toPascalCase, pascalSpec]
  exact congrArg String.mk (pascal_words_eq s.toList).1

/-! ## C10: zero values default like absent values -/

/-- The borderRadius line rendered at the framework default 8. -/
theorem borderRadiusLine_eight :
    borderRadiusLine 8 = "        borderRadius: \x278px\x27,\n" := by decide

/-- C10: the extractor's `|| default` idiom makes a present zero
indistinguishable from an absent value: zero bounding-box extents still
default to 200/50; a resolved text node's zero fontSize and fontWeight
yield 16 and 400; and a cornerRadius of 0 is indistinguishable from an
absent cornerRadius — the generic extraction and the framework generator
produce identical results for the two (defaults 0 and 8 respectively), so
a node with cornerRadius 0 emits `borderRadius: '8px'` on the framework
path. -/
theorem zero_defaults_spec :
    (∀ (n : Node) (bb : BoundingBox), n.absoluteBoundingBox = some bb → bb.width = 0 →
      (extractComponentStyle n).width = 200)
    ∧ (∀ (n : Node) (bb : BoundingBox), n.absoluteBoundingBox = some bb → bb.height = 0 →
      (extractComponentStyle n).height = 50)
    ∧ (∀ (n t : Node), resolvedTextNode n = some t → t.fontSize = some 0 →
      (extractComponentStyle n).fontSize = 16)
    ∧ (∀ (n t : Node), resolvedTextNode n = some t → t.fontWeight = some 0 →
      (extractComponentStyle n).fontWeight = 400)
    ∧ (∀ (d : NodeData) (cs : Option (List Node)),
      extractComponentStyle (.mk { d with cornerRadius := some 0 } cs)
        = extractComponentStyle (.mk { d with cornerRadius := none } cs)
      ∧ generateReactCode (.mk { d with cornerRadius := some 0 } cs)
        = generateReactCode (.mk { d with cornerRadius := none } cs))
    ∧ (∀ n : Node, n.cornerRadius = some 0 →
      (extractComponentStyle n).borderRadius = 0
      ∧ (reactCodeParts n).cornerRadius = 8
      ∧ generateReactCode n =
          reactTemplateBefore (reactCodeParts n) ++ "        borderRadius: \x278px\x27,\n"
            ++ reactTemplateAfter (reactCodeParts n)) := by
  refine ⟨?_, ?_, ?_, ?_, ?_, ?_⟩
  · intro n bb hbb hw
    show jsNumOr (n.absoluteBoundingBox.map BoundingBox.width) 200 = 200
    rw [hbb]
    simp [jsNumOr, hw]
  · intro n bb hbb hh
    show jsNumOr (n.absoluteBoundingBox.map BoundingBox.height) 50 = 50
    rw [hbb]
    simp [jsNumOr, hh]
  · intro n t hres hfs
    show (extractFont n).fontSize = 16
    simp [extractFont, hres, jsNumOr, hfs]
  · intro n t hres hfw
    show (extractFont n).fontWeight = 400
    simp [extractFont, hres, jsNumOr, hfw]
  · intro d cs
    have hText : extractText (.mk { d with cornerRadius := some 0 } cs)
        = extractText (.mk { d with cornerRadius := none } cs) := by
      cases cs <;> simp [extractText.eq_def]
    have hFTN : d.type ≠ "TEXT" →
        findTextNode (.mk { d with cornerRadius := some 0 } cs)
          = findTextNode (.mk { d with cornerRadius := none } cs) := by
      intro ht
      cases cs <;> simp [findTextNode.eq_def, ht]
    have hTC : extractTextColor (.mk { d with cornerRadius := some 0 } cs)
        = extractTextColor (.mk { d with cornerRadius := none } cs) := by
      by_cases ht : d.type = "TEXT"
      · simp [extractTextColor, Node.type, Node.fills, Node.children, Node.data, ht,
          findTextNode.eq_def]
      · simp [extractTextColor, Node.type, Node.fills, Node.children, Node.data, ht,
          hFTN ht]
    have hFont : extractFont (.mk { d with cornerRadius := some 0 } cs)
        = extractFont (.mk { d with cornerRadius := none } cs) := by
      by_cases ht : d.type = "TEXT"
      · simp [extractFont, resolvedTextNode, Node.type, Node.fontSize, Node.fontWeight,
          Node.textAlignHorizontal, Node.data, ht]
      · simp [extractFont, resolvedTextNode, Node.type, Node.data, ht, hFTN ht]
    have hCT : ∀ x y z, classifyType (.mk { d with cornerRadius := some 0 } cs) x y z
        = classifyType (.mk { d with cornerRadius := none } cs) x y z := by
      intro x y z
      simp [classifyType, Node.name, Node.type, Node.strokes, Node.data]
    constructor
    · simp [extractComponentStyle, hText, hTC, hFont, hCT, jsNumOr, Node.fills,
        Node.cornerRadius, Node.absoluteBoundingBox, Node.data]
    · have hParts : reactCodeParts (.mk { d with cornerRadius := some 0 } cs)
          = reactCodeParts (.mk { d with cornerRadius := none } cs) := by
        simp [reactCodeParts, hText, Node.name, Node.fills, Node.cornerRadius,
          Node.absoluteBoundingBox, Node.data, jsNumOr]
      simp [generateReactCode, hParts]
  · intro n h
    have h8 : (reactCodeParts n).cornerRadius = 8 := by
      show jsNumOr n.cornerRadius 8 = 8
      rw [h]
      simp [jsNumOr]
    refine ⟨?_, h8, ?_⟩
    · show jsNumOr n.cornerRadius 0 = 0
      rw [h]
      simp [jsNumOr]
    · rw [generateReactCode, h8, borderRadiusLine_eight]

/-- Witness for C10 at the concrete `zeroDefaultsNode` (bounding box with
zero extents, cornerRadius 0, TEXT child with zero font attributes): every
hypothesis holds by evaluation and the defaults 200, 50, 16, 400 and 8
result. -/
theorem zero_defaults_spec_witness :
    zeroDefaultsNode.absoluteBoundingBox = some ⟨0, 0⟩
    ∧ resolvedTextNode zeroDefaultsNode = some zeroTextChild
    ∧ zeroTextChild.fontSize = some 0
    ∧ zeroDefaultsNode.cornerRadius = some 0
    ∧ (extractComponentStyle zeroDefaultsNode).width = 200
    ∧ (extractComponentStyle zeroDefaultsNode).height = 50
    ∧ (extractComponentStyle zeroDefaultsNode).fontSize = 16
    ∧ (extractComponentStyle zeroDefaultsNode).fontWeight = 400
    ∧ (reactCodeParts zeroDefaultsNode).cornerRadius = 8 :=
  ⟨rfl, rfl, rfl, rfl,
    zero_defaults_spec.1 zeroDefaultsNode ⟨0, 0⟩ rfl rfl,
    zero_defaults_spec.2.1 zeroDefaultsNode ⟨0, 0⟩ rfl rfl,
    zero_defaults_spec.2.2.1 zeroDefaultsNode zeroTextChild rfl rfl,
    zero_defaults_spec.2.2.2.1 zeroDefaultsNode zeroTextChild rfl rfl,
    (zero_defaults_spec.2.2.2.2.2 zeroDefaultsNode rfl).2.1⟩

end FigmaMCP
